import Mathlib

/-!
Shallow embedding of the SonarQube Terraform provider handlers
(`resource_sonarqube_permissions.go` and
`resource_sonarqube_gitlab_binding.go`) and proofs about the claims made
by the specification.  Pure Go functions become Lean functions; the HTTP
transport and the JSON decoders (external collaborators) are passed in as
oracles; the list of issued requests is returned alongside each result so
statements about the number and shape of network calls can be proved.
-/

namespace SonarQube

/-- A Go `interface{}` value held in a Terraform list of strings.  The
schema restricts elements to strings, so a single constructor suffices;
it still records the boxing/unboxing step of the Go code. -/
inductive GoValue where
  | str (s : String)
deriving DecidableEq, Repr

/-- The string under a boxed value; models the Go type assertion
`permission.(string)` (which cannot fail here because the schema only
admits strings). -/
def GoValue.asString : GoValue → String
  | .str s => s

/-- Go error values as this codebase produces them: `fmt.Errorf` without
`%w` yields a plain message error (same dynamic shape as `errors.New`);
`%w` would yield a wrapping error carrying the cause.  The handlers in
the sources only ever use `%+v`, never `%w`. -/
inductive GoError where
  | errorString (msg : String)
  | wrapError (msg : String) (inner : GoError)
deriving DecidableEq, Repr

/-- The `Error()` message of an error value (what `%+v` prints). -/
def GoError.message : GoError → String
  | .errorString m => m
  | .wrapError m _ => m

/-- Models `errors.Unwrap`: only `%w`-built errors expose a cause. -/
def GoError.unwrap : GoError → Option GoError
  | .errorString _ => none
  | .wrapError _ e => some e

/-- The structure a Go caller can recover from an error value without
parsing message text: the length of the `errors.Unwrap` chain.  Plain
`fmt.Errorf`/`errors.New` errors all have shape `0`. -/
def GoError.shape : GoError → Nat
  | .errorString _ => 0
  | .wrapError _ e => e.shape + 1

/-- `true` on `Except.ok`. -/
def exceptIsOk {ε α : Type} : Except ε α → Bool
  | .ok _ => true
  | .error _ => false

instance {ε α : Type} [DecidableEq ε] [DecidableEq α] :
    DecidableEq (Except ε α) := fun x y =>
  match x, y with
  | .ok a, .ok b =>
      if h : a = b then isTrue (h ▸ rfl)
      else isFalse (fun hc => h (Except.ok.inj hc))
  | .error a, .error b =>
      if h : a = b then isTrue (h ▸ rfl)
      else isFalse (fun hc => h (Except.error.inj hc))
  | .ok _, .error _ => isFalse (fun hc => Except.noConfusion hc)
  | .error _, .ok _ => isFalse (fun hc => Except.noConfusion hc)

/-- Outcome of a Go function call that may also panic (needed for the
binding Read, which can index out of range). -/
inductive GoResult (α : Type) where
  | ok (a : α)
  | err (e : GoError)
  | panicked (msg : String)
deriving DecidableEq, Repr

/-! ## Go string helpers used by the handlers -/

/-- `strings.TrimSuffix(s, "/")`: drop one trailing slash if present. -/
def trimTrailingSlash (s : String) : String :=
  match s.toList.getLast? with
  | some '/' => String.mk s.toList.dropLast
  | _ => s

/-- `strings.ToLower`, restricted to ASCII case mapping; every string
compared case-insensitively in this codebase is an ASCII identifier. -/
def goToLower (s : String) : String :=
  String.mk (s.toList.map Char.toLower)

/-- `strings.EqualFold`, restricted to ASCII case folding; every
argument in this codebase is an ASCII identifier. -/
def goEqualFold (a b : String) : Bool :=
  goToLower a == goToLower b

/-- `strconv.FormatBool`. -/
def formatBool (b : Bool) : String :=
  if b then "true" else "false"

/-- Split a character list at the first `'/'`, if any. -/
def splitFirstSlash : List Char → Option (List Char × List Char)
  | [] => none
  | c :: cs =>
      if c = '/' then some ([], cs)
      else (splitFirstSlash cs).map (fun p => (c :: p.1, p.2))

/-- `strings.SplitN(s, "/", 2)`: a one-element slice when `s` has no
slash, otherwise the parts before and after the first slash. -/
def goSplitN2Slash (s : String) : List String :=
  match splitFirstSlash s.toList with
  | none => [s]
  | some p => [String.mk p.1, String.mk p.2]

/-! ## `net/url` query encoding (external stdlib collaborator) -/

/-- The UTF-8 bytes of a character, as numbers. -/
def utf8Bytes (c : Char) : List Nat :=
  let n := c.toNat
  if n < 128 then [n]
  else if n < 2048 then [192 + n / 64, 128 + n % 64]
  else if n < 65536 then [224 + n / 4096, 128 + (n / 64) % 64, 128 + n % 64]
  else [240 + n / 262144, 128 + (n / 4096) % 64, 128 + (n / 64) % 64, 128 + n % 64]

/-- Upper-case hexadecimal digit. -/
def hexDigit (n : Nat) : Char :=
  if n < 10 then Char.ofNat (48 + n) else Char.ofNat (55 + n)

/-- Bytes `url.QueryEscape` leaves untouched: ASCII alphanumerics and
`-`, `_`, `.`, `~`. -/
def isUnreservedByte (b : Nat) : Bool :=
  (65 ≤ b && b ≤ 90) || (97 ≤ b && b ≤ 122) || (48 ≤ b && b ≤ 57) ||
    b == 45 || b == 95 || b == 46 || b == 126

/-- Escape one byte the way `url.QueryEscape` does (space becomes `+`,
other reserved bytes become `%XX`). -/
def escapeByte (b : Nat) : String :=
  if isUnreservedByte b then String.mk [Char.ofNat b]
  else if b == 32 then "+"
  else String.mk ['%', hexDigit (b / 16), hexDigit (b % 16)]

/-- `url.QueryEscape`, byte for byte. -/
def queryEscape (s : String) : String :=
  String.join ((s.toList.map (fun c => (utf8Bytes c).map escapeByte)).flatten)

/-- `url.Values`, kept as an insertion-ordered association list; `Encode`
sorts by key, so only the grouping of equal keys matters. -/
abbrev Values := List (String × String)

/-- `Values.Add`: append a key/value pair. -/
def valuesAdd (vs : Values) (k v : String) : Values :=
  vs ++ [(k, v)]

/-- `Values.Del`: drop every pair with the given key. -/
def valuesDel (vs : Values) (k : String) : Values :=
  vs.filter (fun kv => kv.1 ≠ k)

/-- Lexicographic comparison of character lists by code point. -/
def charListLt : List Char → List Char → Bool
  | [], [] => false
  | [], _ :: _ => true
  | _ :: _, [] => false
  | a :: as, b :: bs =>
      if a.toNat < b.toNat then true
      else if b.toNat < a.toNat then false
      else charListLt as bs

/-- String comparison as `sort.Strings` orders keys (UTF-8 byte order
coincides with code-point order). -/
def goStringLt (a b : String) : Bool :=
  charListLt a.toList b.toList

/-- Stable insertion of a pair into a key-sorted list (equal keys keep
their relative order, matching the per-key value slices of the Go map). -/
def insertKV (p : String × String) : Values → Values
  | [] => [p]
  | q :: qs => if goStringLt p.1 q.1 then p :: q :: qs else q :: insertKV p qs

/-- Stable sort by key. -/
def sortKV : Values → Values
  | [] => []
  | p :: ps => insertKV p (sortKV ps)

/-- `url.Values.Encode`: sort by key, escape keys and values, join with
`&`. -/
def valuesEncode (vs : Values) : String :=
  String.intercalate "&"
    ((sortKV vs).map (fun kv => queryEscape kv.1 ++ "=" ++ queryEscape kv.2))

/-! ## URLs, requests and the transport oracle -/

/-- The parts of a `url.URL` the handlers touch: an opaque
scheme-and-host part, the path and the raw query. -/
structure URL where
  base : String
  path : String
  rawQuery : String
deriving DecidableEq, Repr

/-- `url.URL.String()`. -/
def URL.render (u : URL) : String :=
  u.base ++ u.path ++ (if u.rawQuery = "" then "" else "?" ++ u.rawQuery)

/-- One HTTP request as handed to the transport helper: method, full
URL and the status code the helper will accept. -/
structure Request where
  method : String
  url : String
  expectedStatus : Nat
deriving DecidableEq, Repr

/-- Modelled from the spec: `ProviderConfiguration` is defined in a
source file not present here; per the spec it is the immutable,
process-wide handle holding the base URL and the server edition and
version strings used for edition gating. -/
structure ProviderConfiguration where
  sonarQubeURL : URL
  sonarQubeEdition : String
  sonarQubeVersion : String

/-! ## Server response shapes -/

/-- Modelled from the spec: the `paging` envelope of list responses
(type referenced but not defined in the sources in scope). -/
structure Paging where
  pageIndex : Nat
  pageSize : Nat
  total : Nat
deriving DecidableEq, Repr

/-- `GroupPermission` struct of `resource_sonarqube_permissions.go`. -/
structure GroupPermission where
  id : String
  name : String
  description : String
  permissions : List String
deriving DecidableEq, Repr

/-- `GetGroupPermissions` struct of `resource_sonarqube_permissions.go`. -/
structure GetGroupPermissions where
  paging : Paging
  groups : List GroupPermission
deriving DecidableEq, Repr

/-- Modelled from the spec: the `users` list entry of the
`/api/permissions/users` response (the `GetUser` struct is defined in a
source file not present here); Read uses its login and permission
list. -/
structure User where
  login : String
  permissions : List String
deriving DecidableEq, Repr

/-- Modelled from the spec: the `GetUser` response envelope (paging plus
a `users` list). -/
structure GetUser where
  paging : Paging
  users : List User
deriving DecidableEq, Repr

/-- `PermissionTemplatePermission`: a template permission entry with its
`withProjectCreator` flag (type used by
`flattenProjectCreatorPermissions`; defined outside the sources in
scope, fields taken from its uses and the spec). -/
structure PermissionTemplatePermission where
  key : String
  withProjectCreator : Bool
deriving DecidableEq, Repr

/-- Modelled from the spec: one entry of the `permissionTemplates` list
of the `/api/permissions/search_templates` response. -/
structure PermissionTemplate where
  id : String
  name : String
  permissions : List PermissionTemplatePermission
deriving DecidableEq, Repr

/-- Modelled from the spec: the `/api/permissions/search_templates`
response envelope. -/
structure GetPermissionTemplates where
  permissionTemplates : List PermissionTemplate
deriving DecidableEq, Repr

/-- Modelled from the spec: the `/api/alm_settings/get_binding` response
(the `GetBinding` struct is defined in a source file not present here);
the binding Read uses its ALM key, kind, repository and monorepo flag. -/
structure GetBinding where
  key : String
  alm : String
  repository : String
  monorepo : Bool
deriving DecidableEq, Repr

/-- Modelled from the spec: the transport invoker (`httpRequestHelper`,
not among the sources in scope) issues one request, validates the
response status against the expected value and returns the body or a
classified error; the JSON decoders are the `encoding/json` stdlib.
Both are supplied as oracles. -/
structure Wire where
  http : Request → Except GoError String
  decodeUsers : String → Except GoError GetUser
  decodeGroups : String → Except GoError GetGroupPermissions
  decodeTemplates : String → Except GoError GetPermissionTemplates
  decodeBinding : String → Except GoError GetBinding

/-- Modelled from the spec: a classified transport error wrapping the
underlying cause, as the transport invoker returns it. -/
def transportClassifiedError (cause : String) : GoError :=
  .wrapError ("TransportError: " ++ cause) (.errorString cause)

/-! ## Declared state (`schema.ResourceData`) -/

/-- The declared fields of the permissions resource plus the stored id.
An empty string models an unset field, matching Go's `GetOk`, which
reports `false` for zero values. -/
structure PermDecl where
  loginName : String := ""
  groupName : String := ""
  specialGroupName : String := ""
  projectKey : String := ""
  templateId : String := ""
  templateName : String := ""
  permissions : List GoValue := []
  id : String := ""
deriving DecidableEq, Repr

/-- The declared fields of the GitLab binding resource plus the stored
id. -/
structure GitlabBindingDecl where
  almSetting : String := ""
  monorepo : String := "false"
  project : String := ""
  repository : String := ""
  id : String := ""
deriving DecidableEq, Repr

/-! ## Codec (`expandPermissions` and the flatten helpers) -/

/-- `expandPermissions`: unbox the declared permission list into a Go
string slice, by appending one element per iteration. -/
def expandPermissions (d : PermDecl) : List String :=
  d.permissions.foldl (fun acc p => acc ++ [p.asString]) []

/-- `flattenPermissions`: box a server string slice (possibly nil) into
a Terraform list, preserving order. -/
def flattenPermissions (input : Option (List String)) : List GoValue :=
  match input with
  | none => []
  | some l => l.foldl (fun acc p => acc ++ [GoValue.str p]) []

/-- `flattenProjectCreatorPermissions`: keep only the entries whose
`withProjectCreator` flag is true and emit their permission keys. -/
def flattenProjectCreatorPermissions
    (input : Option (List PermissionTemplatePermission)) : List GoValue :=
  match input with
  | none => []
  | some l =>
      l.foldl
        (fun acc p =>
          if p.withProjectCreator then acc ++ [GoValue.str p.key] else acc) []

/-! ## Permissions handlers (`resource_sonarqube_permissions.go`) -/

/-- Natural-key match used by the user branch of the permissions Read:
`strings.EqualFold(value.Login, loginName)`. -/
def userPermMatch (loginName : String) (u : User) : Bool :=
  goEqualFold u.login loginName

/-- Natural-key match used by the group branch of the permissions Read:
`strings.EqualFold(value.Name, groupName)`. -/
def groupPermMatch (groupName : String) (g : GroupPermission) : Bool :=
  goEqualFold g.name groupName

/-- Natural-key match used by the template branch of the permissions
Read: `strings.EqualFold(value.ID, templateId) ||
strings.EqualFold(value.Name, templateName)`. -/
def templatePermMatch (templateId templateName : String)
    (t : PermissionTemplate) : Bool :=
  goEqualFold t.id templateId || goEqualFold t.name templateName

/-- Endpoint and base-query resolution performed at the top of
`resourceSonarqubePermissionsCreate` (lines 106-159): pick the path and
parameters from the selector and scope fields; in the special-group
branch fail when neither template field is set. -/
def permCreateResolve (d : PermDecl) : Except GoError (String × Values) :=
  let rawQuery : Values := []
  let rawQuery :=
    if d.projectKey ≠ "" then valuesAdd rawQuery "projectKey" d.projectKey
    else rawQuery
  if d.loginName ≠ "" then
    let rawQuery := valuesAdd rawQuery "login" d.loginName
    if d.templateId ≠ "" then
      .ok ("/api/permissions/add_user_to_template",
        valuesAdd rawQuery "templateId" d.templateId)
    else if d.templateName ≠ "" then
      .ok ("/api/permissions/add_user_to_template",
        valuesAdd rawQuery "templateName" d.templateName)
    else
      .ok ("/api/permissions/add_user", rawQuery)
  else if d.groupName ≠ "" then
    let rawQuery := valuesAdd rawQuery "groupName" d.groupName
    if d.templateId ≠ "" then
      .ok ("/api/permissions/add_group_to_template",
        valuesAdd rawQuery "templateId" d.templateId)
    else if d.templateName ≠ "" then
      .ok ("/api/permissions/add_group_to_template",
        valuesAdd rawQuery "templateName" d.templateName)
    else
      .ok ("/api/permissions/add_group", rawQuery)
  else
    if d.templateId ≠ "" then
      .ok ("/api/permissions/add_project_creator_to_template",
        valuesAdd rawQuery "templateId" d.templateId)
    else if d.templateName ≠ "" then
      .ok ("/api/permissions/add_project_creator_to_template",
        valuesAdd rawQuery "templateName" d.templateName)
    else
      .error (.errorString
        "resourceSonarqubePermissionsCreate: \x27templateId\x27 or \x27templateName\x27 must be set when \x27special_group_name\x27 is set to \x27project_creator\x27")

/-- Endpoint and base-query resolution performed at the top of
`resourceSonarqubePermissionsDelete` (lines 338-393); the principal
parameter is added after the template branch there. -/
def permDeleteResolve (d : PermDecl) : Except GoError (String × Values) :=
  let rawQuery : Values := []
  let rawQuery :=
    if d.projectKey ≠ "" then valuesAdd rawQuery "projectKey" d.projectKey
    else rawQuery
  if d.loginName ≠ "" then
    let pq :=
      if d.templateId ≠ "" then
        ("/api/permissions/remove_user_from_template",
          valuesAdd rawQuery "templateId" d.templateId)
      else if d.templateName ≠ "" then
        ("/api/permissions/remove_user_from_template",
          valuesAdd rawQuery "templateName" d.templateName)
      else
        ("/api/permissions/remove_user", rawQuery)
    .ok (pq.1, valuesAdd pq.2 "login" d.loginName)
  else if d.groupName ≠ "" then
    let pq :=
      if d.templateId ≠ "" then
        ("/api/permissions/remove_group_from_template",
          valuesAdd rawQuery "templateId" d.templateId)
      else if d.templateName ≠ "" then
        ("/api/permissions/remove_group_from_template",
          valuesAdd rawQuery "templateName" d.templateName)
      else
        ("/api/permissions/remove_group", rawQuery)
    .ok (pq.1, valuesAdd pq.2 "groupName" d.groupName)
  else
    if d.templateId ≠ "" then
      .ok ("/api/permissions/remove_project_creator_from_template",
        valuesAdd rawQuery "templateId" d.templateId)
    else if d.templateName ≠ "" then
      .ok ("/api/permissions/remove_project_creator_from_template",
        valuesAdd rawQuery "templateName" d.templateName)
    else
      .error (.errorString
        "resourceSonarqubePermissionsDelete: \x27templateId\x27 or \x27templateName\x27 must be set when \x27special_group_name\x27 is set to \x27project_creator\x27")

/-- The POST issued for one permission value: the base query with the
`permission` key replaced by the current value (`Del` then `Add` on the
shared `url.Values`), expecting `204 No Content`. -/
def permRequest (conf : ProviderConfiguration) (path : String)
    (q : Values) (permission : String) : Request :=
  { method := "POST"
    url := URL.render
      { conf.sonarQubeURL with
        path := trimTrailingSlash conf.sonarQubeURL.path ++ path
        rawQuery :=
          valuesEncode (valuesAdd (valuesDel q "permission") "permission" permission) }
    expectedStatus := 204 }

/-- The per-value loop shared by Create and Delete (lines 161-179 and
395-413): one POST per declared permission; the first failure aborts
with a wrapped error and no further request is issued. -/
def permLoop (w : Wire) (conf : ProviderConfiguration) (path : String)
    (q : Values) (wrapMsg : String) :
    List String → Except GoError Unit × List Request
  | [] => (.ok (), [])
  | p :: rest =>
      let r := permRequest conf path q p
      match w.http r with
      | .error e => (.error (.errorString (wrapMsg ++ e.message)), [r])
      | .ok _ =>
          let t := permLoop w conf path q wrapMsg rest
          (t.1, r :: t.2)

/-- The base query of the permissions Read: page size 100 plus the
project key when set. -/
def permReadBaseQuery (d : PermDecl) : Values :=
  let rawQuery : Values := [("ps", "100")]
  if d.projectKey ≠ "" then valuesAdd rawQuery "projectKey" d.projectKey
  else rawQuery

/-- The GET of the user branch of the permissions Read
(`/api/permissions/template_users` or `/api/permissions/users`). -/
def permReadUserRequest (conf : ProviderConfiguration) (d : PermDecl) : Request :=
  let pq :=
    if d.templateId ≠ "" then
      ("/api/permissions/template_users",
        valuesAdd (permReadBaseQuery d) "templateId" d.templateId)
    else if d.templateName ≠ "" then
      ("/api/permissions/template_users",
        valuesAdd (permReadBaseQuery d) "templateName" d.templateName)
    else
      ("/api/permissions/users", permReadBaseQuery d)
  { method := "GET"
    url := URL.render
      { conf.sonarQubeURL with
        path := trimTrailingSlash conf.sonarQubeURL.path ++ pq.1
        rawQuery := valuesEncode pq.2 }
    expectedStatus := 200 }

/-- The GET of the group branch of the permissions Read
(`/api/permissions/template_groups` or `/api/permissions/groups`). -/
def permReadGroupRequest (conf : ProviderConfiguration) (d : PermDecl) : Request :=
  let pq :=
    if d.templateId ≠ "" then
      ("/api/permissions/template_groups",
        valuesAdd (permReadBaseQuery d) "templateId" d.templateId)
    else if d.templateName ≠ "" then
      ("/api/permissions/template_groups",
        valuesAdd (permReadBaseQuery d) "templateName" d.templateName)
    else
      ("/api/permissions/groups", permReadBaseQuery d)
  { method := "GET"
    url := URL.render
      { conf.sonarQubeURL with
        path := trimTrailingSlash conf.sonarQubeURL.path ++ pq.1
        rawQuery := valuesEncode pq.2 }
    expectedStatus := 200 }

/-- The GET of the special-group branch of the permissions Read
(`/api/permissions/search_templates`; only the template name is ever
added to the query there). -/
def permReadTemplatesRequest (conf : ProviderConfiguration) (d : PermDecl) : Request :=
  let rawQuery :=
    if d.templateName ≠ "" then
      valuesAdd (permReadBaseQuery d) "templateName" d.templateName
    else permReadBaseQuery d
  { method := "GET"
    url := URL.render
      { conf.sonarQubeURL with
        path := trimTrailingSlash conf.sonarQubeURL.path ++ "/api/permissions/search_templates"
        rawQuery := valuesEncode rawQuery }
    expectedStatus := 200 }

/-- `resourceSonarqubePermissionsRead` (lines 186-331): pick the list
endpoint from the selector and scope fields, GET it expecting `200`,
decode, then scan for the first entry matching the declared natural
key; a missing entry yields the shared formatted error of line 330. -/
def resourceSonarqubePermissionsRead (w : Wire) (conf : ProviderConfiguration)
    (d : PermDecl) : Except GoError PermDecl × List Request :=
  if d.loginName ≠ "" then
    let req := permReadUserRequest conf d
    let res : Except GoError PermDecl :=
      match w.http req with
      | .error e =>
          .error (.errorString ("error reading Sonarqube permissions: " ++ e.message))
      | .ok body =>
          match w.decodeUsers body with
          | .error e =>
              .error (.errorString
                ("resourceSonarqubePermissionsRead: Failed to decode json into struct: " ++ e.message))
          | .ok users =>
              match users.users.find? (userPermMatch d.loginName) with
              | some u =>
                  .ok { d with
                      loginName := u.login
                      permissions := flattenPermissions (some u.permissions) }
              | none =>
                  .error (.errorString
                    ("resourceSonarqubePermissionsRead: Unable to find group permissions for group: " ++ d.id))
    (res, [req])
  else if d.groupName ≠ "" then
    let req := permReadGroupRequest conf d
    let res : Except GoError PermDecl :=
      match w.http req with
      | .error e =>
          .error (.errorString ("error reading Sonarqube permissions: " ++ e.message))
      | .ok body =>
          match w.decodeGroups body with
          | .error e =>
              .error (.errorString
                ("resourceSonarqubePermissionsRead: Failed to decode json into struct: " ++ e.message))
          | .ok groups =>
              match groups.groups.find? (groupPermMatch d.groupName) with
              | some g =>
                  .ok { d with
                      groupName := g.name
                      permissions := flattenPermissions (some g.permissions) }
              | none =>
                  .error (.errorString
                    ("resourceSonarqubePermissionsRead: Unable to find group permissions for group: " ++ d.id))
    (res, [req])
  else
    let req := permReadTemplatesRequest conf d
    let res : Except GoError PermDecl :=
      match w.http req with
      | .error e =>
          .error (.errorString ("error reading Sonarqube permissions: " ++ e.message))
      | .ok body =>
          match w.decodeTemplates body with
          | .error e =>
              .error (.errorString
                ("resourceSonarqubePermissionsRead: Failed to decode json into struct: " ++ e.message))
          | .ok templates =>
              match templates.permissionTemplates.find?
                  (templatePermMatch d.templateId d.templateName) with
              | some t =>
                  .ok { d with
                      specialGroupName := "project_creator"
                      permissions := flattenProjectCreatorPermissions (some t.permissions) }
              | none =>
                  .error (.errorString
                    ("resourceSonarqubePermissionsRead: Unable to find group permissions for group: " ++ d.id))
    (res, [req])

/-- `resourceSonarqubePermissionsCreate` (lines 101-184): resolve the
endpoint, issue one POST per declared permission value, then store a
fresh UUID as the id and read back.  The issued requests are returned
in order. -/
def resourceSonarqubePermissionsCreate (w : Wire) (conf : ProviderConfiguration)
    (d : PermDecl) (newUuid : String) : Except GoError PermDecl × List Request :=
  let permissions := expandPermissions d
  match permCreateResolve d with
  | .error e => (.error e, [])
  | .ok pq =>
      match permLoop w conf pq.1 pq.2 "error creating Sonarqube permission: " permissions with
      | (.error e, tr) => (.error e, tr)
      | (.ok _, tr) =>
          let d2 := { d with id := newUuid }
          let r := resourceSonarqubePermissionsRead w conf d2
          (r.1, tr ++ r.2)

/-- `resourceSonarqubePermissionsDelete` (lines 333-416): resolve the
remove endpoint and issue one POST per declared permission value. -/
def resourceSonarqubePermissionsDelete (w : Wire) (conf : ProviderConfiguration)
    (d : PermDecl) : Except GoError Unit × List Request :=
  let permissions := expandPermissions d
  match permDeleteResolve d with
  | .error e => (.error e, [])
  | .ok pq =>
      permLoop w conf pq.1 pq.2 "error creating Sonarqube permission: " permissions

/-! ## GitLab binding handlers (`resource_sonarqube_gitlab_binding.go`) -/

/-- `checkGitlabBindingSupport`: a descriptive error when the server
edition is the Community edition (case-insensitive). -/
def checkGitlabBindingSupport (conf : ProviderConfiguration) : Option GoError :=
  if goToLower conf.sonarQubeEdition = "community" then
    some (.errorString
      ("GitLab Bindings are not supported in the Community edition of SonarQube. You are using: SonarQube "
        ++ conf.sonarQubeEdition ++ " version " ++ conf.sonarQubeVersion))
  else none

/-- Natural-key match of the binding Read (line 127): exact,
case-sensitive comparison of the repository id and the ALM kind. -/
def gitlabBindingMatch (repo : String) (b : GetBinding) : Bool :=
  repo == b.repository && b.alm == "gitlab"

/-- The GET of the binding Read
(`/api/alm_settings/get_binding?project=<idSlice[0]>`). -/
def gitlabGetBindingRequest (conf : ProviderConfiguration) (project : String) : Request :=
  { method := "GET"
    url := URL.render
      { conf.sonarQubeURL with
        path := trimTrailingSlash conf.sonarQubeURL.path ++ "/api/alm_settings/get_binding"
        rawQuery := valuesEncode [("project", project)] }
    expectedStatus := 200 }

/-- `resourceSonarqubeGitlabBindingRead` (lines 96-137): edition check,
split the id on the first slash, GET the binding, decode, then compare
`idSlice[1]` with the repository — evaluating `idSlice[1]` panics when
the split produced a single element. -/
def resourceSonarqubeGitlabBindingRead (w : Wire) (conf : ProviderConfiguration)
    (d : GitlabBindingDecl) : GoResult GitlabBindingDecl × List Request :=
  match checkGitlabBindingSupport conf with
  | some e => (.err e, [])
  | none =>
      let idSlice := goSplitN2Slash d.id
      let req := gitlabGetBindingRequest conf (idSlice.headD "")
      let res : GoResult GitlabBindingDecl :=
        match w.http req with
        | .error e => .err e
        | .ok body =>
            match w.decodeBinding body with
            | .error e =>
                .err (.errorString
                  ("resourceSonarqubeGitlabBindingRead: Failed to decode json into struct: " ++ e.message))
            | .ok b =>
                match idSlice.get? 1 with
                | none =>
                    .panicked "runtime error: index out of range [1] with length 1"
                | some repoId =>
                    if gitlabBindingMatch repoId b then
                      .ok { d with
                          project := idSlice.headD ""
                          repository := repoId
                          almSetting := b.key
                          monorepo := formatBool b.monorepo }
                    else
                      .err (.errorString
                        ("resourceSonarqubeGitlabBindingRead: Failed to find gitlab binding: " ++ d.id))
      (res, [req])

/-- `resourceSonarqubeGitlabBindingCreate` (lines 63-94): edition check,
one POST to `set_gitlab_binding` expecting `204`, then store
`<project>/<repository>` as the id and read back. -/
def resourceSonarqubeGitlabBindingCreate (w : Wire) (conf : ProviderConfiguration)
    (d : GitlabBindingDecl) : GoResult GitlabBindingDecl × List Request :=
  match checkGitlabBindingSupport conf with
  | some e => (.err e, [])
  | none =>
      let req : Request :=
        { method := "POST"
          url := URL.render
            { conf.sonarQubeURL with
              path := trimTrailingSlash conf.sonarQubeURL.path ++ "/api/alm_settings/set_gitlab_binding"
              rawQuery := valuesEncode
                [("almSetting", d.almSetting), ("monorepo", d.monorepo),
                 ("project", d.project), ("repository", d.repository)] }
          expectedStatus := 204 }
      match w.http req with
      | .error e => (.err e, [req])
      | .ok _ =>
          let d2 := { d with id := d.project ++ "/" ++ d.repository }
          let r := resourceSonarqubeGitlabBindingRead w conf d2
          (r.1, req :: r.2)

/-- The resource wires Update to the same handler as Create. -/
def resourceSonarqubeGitlabBindingUpdate (w : Wire) (conf : ProviderConfiguration)
    (d : GitlabBindingDecl) : GoResult GitlabBindingDecl × List Request :=
  resourceSonarqubeGitlabBindingCreate w conf d

/-- `resourceSonarqubeGitlabBindingDelete` (lines 139-163): edition
check, one POST to `delete_binding` expecting `204`. -/
def resourceSonarqubeGitlabBindingDelete (w : Wire) (conf : ProviderConfiguration)
    (d : GitlabBindingDecl) : GoResult Unit × List Request :=
  match checkGitlabBindingSupport conf with
  | some e => (.err e, [])
  | none =>
      let req : Request :=
        { method := "POST"
          url := URL.render
            { conf.sonarQubeURL with
              path := trimTrailingSlash conf.sonarQubeURL.path ++ "/api/alm_settings/delete_binding"
              rawQuery := valuesEncode [("project", d.project)] }
          expectedStatus := 204 }
      match w.http req with
      | .error e => (.err e, [req])
      | .ok _ => (.ok (), [req])

/-- `resourceSonarqubeGitlabBindingImport` (lines 165-170): delegate to
Read and return the refreshed declaration on success. -/
def resourceSonarqubeGitlabBindingImport (w : Wire) (conf : ProviderConfiguration)
    (d : GitlabBindingDecl) : GoResult (List GitlabBindingDecl) × List Request :=
  match resourceSonarqubeGitlabBindingRead w conf d with
  | (.ok d2, tr) => (.ok [d2], tr)
  | (.err e, tr) => (.err e, tr)
  | (.panicked m, tr) => (.panicked m, tr)

/-! ## Concrete fixtures used by witnesses and counterexamples -/

/-- A provider configuration with an empty base URL and a non-Community
edition. -/
def confFix : ProviderConfiguration :=
  { sonarQubeURL := { base := "", path := "", rawQuery := "" }
    sonarQubeEdition := "developer"
    sonarQubeVersion := "10.1" }

/-- The Community-edition configuration. -/
def confCommunity : ProviderConfiguration :=
  { confFix with sonarQubeEdition := "Community" }

/-- A wire whose every oracle fails; fixtures override the parts they
need. -/
def wireNull : Wire :=
  { http := fun _ => .error (.errorString "unreachable")
    decodeUsers := fun _ => .error (.errorString "unreachable")
    decodeGroups := fun _ => .error (.errorString "unreachable")
    decodeTemplates := fun _ => .error (.errorString "unreachable")
    decodeBinding := fun _ => .error (.errorString "unreachable") }

/-- A fixed paging envelope. -/
def pagingFix : Paging := ⟨1, 100, 1⟩

/-- The declaration of the spec's concrete scenario. -/
def dAlice : PermDecl :=
  { loginName := "alice", projectKey := "proj1"
    permissions := [.str "user", .str "scan"] }

/-- A server accepting every POST and answering the user list GET with
one entry whose login differs from the declared one only in case. -/
def wireAlice : Wire :=
  { wireNull with
    http := fun r => if r.method = "POST" then .ok "" else .ok "usersBody"
    decodeUsers := fun b =>
      if b = "usersBody" then
        .ok ⟨pagingFix, [⟨"Alice", ["scan", "user"]⟩]⟩
      else .error (.errorString "bad body") }

/-- A special-group declaration with neither template field set. -/
def dSpecial : PermDecl :=
  { specialGroupName := "project_creator", permissions := [.str "admin"] }

/-- A two-permission user declaration. -/
def dBob : PermDecl :=
  { loginName := "bob", permissions := [.str "user", .str "scan"] }

/-- A server that rejects the POST for the second permission value of
`dBob` and accepts everything else. -/
def wireFailScan : Wire :=
  { wireNull with
    http := fun r =>
      if r.url = "/api/permissions/add_user?login=bob&permission=scan" then
        .error (.errorString "boom")
      else .ok "" }

/-- A binding declaration. -/
def dBind : GitlabBindingDecl :=
  { almSetting := "gl1", monorepo := "false", project := "proj", repository := "repo" }

/-- The binding declaration with a stored id whose repository part
differs from the remote record only in letter case. -/
def dBindCex : GitlabBindingDecl :=
  { dBind with id := "proj/Repo" }

/-- A binding declaration with a slash-free id. -/
def dNoSlash : GitlabBindingDecl :=
  { dBind with id := "abc" }

/-- A server answering every request with a decodable GitLab binding for
repository `repo`. -/
def wireBind : Wire :=
  { wireNull with
    http := fun _ => .ok "bindBody"
    decodeBinding := fun b =>
      if b = "bindBody" then .ok ⟨"gl1", "gitlab", "repo", false⟩
      else .error (.errorString "bad body") }

/-- A user declaration used for the error-kind runs. -/
def dCarol : PermDecl :=
  { loginName := "carol", id := "id-1", permissions := [.str "user"] }

/-- A wire whose transport fails with a classified error. -/
def wireTransportFail : Wire :=
  { wireNull with
    http := fun _ => .error (transportClassifiedError "connection refused") }

/-- A wire answering the user list GET with an empty list. -/
def wireNoMatch : Wire :=
  { wireNull with
    http := fun _ => .ok "emptyBody"
    decodeUsers := fun b =>
      if b = "emptyBody" then .ok ⟨pagingFix, []⟩
      else .error (.errorString "bad body") }

/-! ## Helper lemmas -/

theorem foldl_append_map {α β : Type} (f : α → β) (l : List α) :
    ∀ acc : List β, l.foldl (fun a x => a ++ [f x]) acc = acc ++ l.map f := by
  induction l with
  | nil => intro acc; simp
  | cons x xs ih => intro acc; simp [ih]

theorem foldl_filter_append_map {α β : Type} (p : α → Bool) (f : α → β)
    (l : List α) :
    ∀ acc : List β,
      l.foldl (fun a x => if p x then a ++ [f x] else a) acc =
        acc ++ (l.filter p).map f := by
  induction l with
  | nil => intro acc; simp
  | cons x xs ih =>
      intro acc
      cases h : p x <;> simp [List.filter_cons, h, ih]

theorem expandPermissions_eq_map (d : PermDecl) :
    expandPermissions d = d.permissions.map GoValue.asString := by
  unfold expandPermissions
  simpa using foldl_append_map GoValue.asString d.permissions []

theorem flattenPermissions_some (l : List String) :
    flattenPermissions (some l) = l.map GoValue.str := by
  unfold flattenPermissions
  simpa using foldl_append_map GoValue.str l []

/-- The per-value loop when every request succeeds: one request per
value, in order, and a success result. -/
theorem permLoop_all_ok (w : Wire) (conf : ProviderConfiguration)
    (path : String) (q : Values) (m : String) (ps : List String)
    (h : ∀ p ∈ ps, exceptIsOk (w.http (permRequest conf path q p)) = true) :
    permLoop w conf path q m ps = (.ok (), ps.map (permRequest conf path q)) := by
  induction ps with
  | nil => rfl
  | cons p rest ih =>
      have hp := h p (by simp)
      unfold permLoop
      cases hh : w.http (permRequest conf path q p) with
      | error e => rw [hh] at hp; simp [exceptIsOk] at hp
      | ok b =>
          simp only [hh]
          rw [ih (fun x hx => h x (by simp [hx]))]
          simp

/-- The per-value loop aborted by the first failing request: the
requests before the failing one, then the failing one, nothing after. -/
theorem permLoop_first_fail (w : Wire) (conf : ProviderConfiguration)
    (path : String) (q : Values) (m : String)
    (pre : List String) (pf : String) (post : List String) (e : GoError)
    (hpre : ∀ p ∈ pre, exceptIsOk (w.http (permRequest conf path q p)) = true)
    (hf : w.http (permRequest conf path q pf) = .error e) :
    permLoop w conf path q m (pre ++ pf :: post) =
      (.error (.errorString (m ++ e.message)),
       (pre ++ [pf]).map (permRequest conf path q)) := by
  induction pre with
  | nil => simp [permLoop, hf]
  | cons p ps ih =>
      have hp := hpre p (by simp)
      rw [List.cons_append]
      unfold permLoop
      cases hh : w.http (permRequest conf path q p) with
      | error e2 => rw [hh] at hp; simp [exceptIsOk] at hp
      | ok b =>
          simp only [hh]
          rw [ih (fun x hx => hpre x (by simp [hx]))]
          simp

/-- The permissions Read never changes the stored id. -/
theorem permRead_preserves_id (w : Wire) (conf : ProviderConfiguration)
    (d : PermDecl) (d' : PermDecl)
    (h : (resourceSonarqubePermissionsRead w conf d).1 = .ok d') :
    d'.id = d.id := by
  unfold resourceSonarqubePermissionsRead at h
  dsimp only at h
  repeat' split at h
  all_goals dsimp only at h
  all_goals first
    | (injection h with h2; subst h2; rfl)
    | simp_all

/-- The binding Read never changes the stored id. -/
theorem gitlabRead_preserves_id (w : Wire) (conf : ProviderConfiguration)
    (d : GitlabBindingDecl) (d' : GitlabBindingDecl)
    (h : (resourceSonarqubeGitlabBindingRead w conf d).1 = .ok d') :
    d'.id = d.id := by
  unfold resourceSonarqubeGitlabBindingRead at h
  dsimp only at h
  repeat' split at h
  all_goals dsimp only at h
  all_goals first
    | (injection h with h2; subst h2; rfl)
    | simp_all

theorem splitFirstSlash_eq_none (l : List Char) (h : '/' ∉ l) :
    splitFirstSlash l = none := by
  induction l with
  | nil => rfl
  | cons c cs ih =>
      unfold splitFirstSlash
      rw [if_neg (by intro hc; exact h (hc ▸ List.mem_cons_self c cs)),
        ih (fun hc => h (List.mem_cons_of_mem c hc))]
      rfl

theorem goSplitN2Slash_no_slash (s : String) (h : '/' ∉ s.toList) :
    goSplitN2Slash s = [s] := by
  unfold goSplitN2Slash
  rw [splitFirstSlash_eq_none s.toList h]

/-! ## Claims -/

/-- C7: for every list of permission-template permission objects,
flattening project-creator permissions keeps exactly the entries whose
`withProjectCreator` flag is true, discards all others, and outputs only
the permission keys of the kept entries, in the order received. -/
theorem flattenProjectCreatorPermissionsFilters
    (l : List PermissionTemplatePermission) :
    flattenProjectCreatorPermissions (some l) =
      (l.filter (fun p => p.withProjectCreator)).map (fun p => GoValue.str p.key) := by
  unfold flattenProjectCreatorPermissions
  simpa using
    foldl_filter_append_map (fun p => p.withProjectCreator)
      (fun p => GoValue.str p.key) l []

/-- C10: flattening a server permission list returns the same strings in
the same order (no sorting, no deduplication), and expanding the
flattened list recovers the original string list: `expandPermissions`
after `flattenPermissions` is the identity on string lists. -/
theorem flattenExpandRoundtrip (d : PermDecl) (l : List String) :
    flattenPermissions (some l) = l.map GoValue.str ∧
    expandPermissions { d with permissions := flattenPermissions (some l) } = l := by
  refine ⟨flattenPermissions_some l, ?_⟩
  rw [expandPermissions_eq_map]
  simp [flattenPermissions_some, Function.comp_def, GoValue.asString]

/-- C1: for a permissions declaration in special-group mode (neither
`login_name` nor `group_name` set) with neither `template_id` nor
`template_name` set, Create and Delete both return the configuration
error and issue zero HTTP requests, whatever the transport would have
answered: the check precedes any network call. -/
theorem permissionsSpecialGroupWithoutTemplateNoRequests
    (w : Wire) (conf : ProviderConfiguration) (d : PermDecl) (newUuid : String)
    (hLogin : d.loginName = "") (hGroup : d.groupName = "")
    (hTid : d.templateId = "") (hTname : d.templateName = "") :
    resourceSonarqubePermissionsCreate w conf d newUuid =
      (.error (.errorString
        "resourceSonarqubePermissionsCreate: \x27templateId\x27 or \x27templateName\x27 must be set when \x27special_group_name\x27 is set to \x27project_creator\x27"),
       []) ∧
    resourceSonarqubePermissionsDelete w conf d =
      (.error (.errorString
        "resourceSonarqubePermissionsDelete: \x27templateId\x27 or \x27templateName\x27 must be set when \x27special_group_name\x27 is set to \x27project_creator\x27"),
       []) := by
  constructor
  · simp [resourceSonarqubePermissionsCreate, permCreateResolve,
      hLogin, hGroup, hTid, hTname]
  · simp [resourceSonarqubePermissionsDelete, permDeleteResolve,
      hLogin, hGroup, hTid, hTname]

theorem permissionsSpecialGroupWithoutTemplateNoRequestsWitness :
    resourceSonarqubePermissionsCreate wireNull confFix dSpecial "u1" =
      (.error (.errorString
        "resourceSonarqubePermissionsCreate: \x27templateId\x27 or \x27templateName\x27 must be set when \x27special_group_name\x27 is set to \x27project_creator\x27"),
       []) ∧
    resourceSonarqubePermissionsDelete wireNull confFix dSpecial =
      (.error (.errorString
        "resourceSonarqubePermissionsDelete: \x27templateId\x27 or \x27templateName\x27 must be set when \x27special_group_name\x27 is set to \x27project_creator\x27"),
       []) :=
  permissionsSpecialGroupWithoutTemplateNoRequests wireNull confFix dSpecial "u1"
    rfl rfl rfl rfl

/-- C3: when the configured server edition equals `"community"`
case-insensitively, every GitLab binding operation (Create, Update,
Read, Delete) returns the descriptive edition error immediately and
issues zero HTTP requests. -/
theorem gitlabBindingCommunityEditionGated
    (w : Wire) (conf : ProviderConfiguration) (d : GitlabBindingDecl)
    (h : goToLower conf.sonarQubeEdition = "community") :
    resourceSonarqubeGitlabBindingCreate w conf d =
      (.err (.errorString
        ("GitLab Bindings are not supported in the Community edition of SonarQube. You are using: SonarQube "
          ++ conf.sonarQubeEdition ++ " version " ++ conf.sonarQubeVersion)), []) ∧
    resourceSonarqubeGitlabBindingUpdate w conf d =
      (.err (.errorString
        ("GitLab Bindings are not supported in the Community edition of SonarQube. You are using: SonarQube "
          ++ conf.sonarQubeEdition ++ " version " ++ conf.sonarQubeVersion)), []) ∧
    resourceSonarqubeGitlabBindingRead w conf d =
      (.err (.errorString
        ("GitLab Bindings are not supported in the Community edition of SonarQube. You are using: SonarQube "
          ++ conf.sonarQubeEdition ++ " version " ++ conf.sonarQubeVersion)), []) ∧
    resourceSonarqubeGitlabBindingDelete w conf d =
      (.err (.errorString
        ("GitLab Bindings are not supported in the Community edition of SonarQube. You are using: SonarQube "
          ++ conf.sonarQubeEdition ++ " version " ++ conf.sonarQubeVersion)), []) := by
  refine ⟨?_, ?_, ?_, ?_⟩ <;>
    simp [resourceSonarqubeGitlabBindingCreate, resourceSonarqubeGitlabBindingUpdate,
      resourceSonarqubeGitlabBindingRead, resourceSonarqubeGitlabBindingDelete,
      checkGitlabBindingSupport, h]

theorem gitlabBindingCommunityEditionGatedWitness :
    resourceSonarqubeGitlabBindingCreate wireNull confCommunity dBind =
      (.err (.errorString
        ("GitLab Bindings are not supported in the Community edition of SonarQube. You are using: SonarQube "
          ++ confCommunity.sonarQubeEdition ++ " version " ++ confCommunity.sonarQubeVersion)), []) ∧
    resourceSonarqubeGitlabBindingUpdate wireNull confCommunity dBind =
      (.err (.errorString
        ("GitLab Bindings are not supported in the Community edition of SonarQube. You are using: SonarQube "
          ++ confCommunity.sonarQubeEdition ++ " version " ++ confCommunity.sonarQubeVersion)), []) ∧
    resourceSonarqubeGitlabBindingRead wireNull confCommunity dBind =
      (.err (.errorString
        ("GitLab Bindings are not supported in the Community edition of SonarQube. You are using: SonarQube "
          ++ confCommunity.sonarQubeEdition ++ " version " ++ confCommunity.sonarQubeVersion)), []) ∧
    resourceSonarqubeGitlabBindingDelete wireNull confCommunity dBind =
      (.err (.errorString
        ("GitLab Bindings are not supported in the Community edition of SonarQube. You are using: SonarQube "
          ++ confCommunity.sonarQubeEdition ++ " version " ++ confCommunity.sonarQubeVersion)), []) :=
  gitlabBindingCommunityEditionGated wireNull confCommunity dBind (by decide)

/-- C5: the spec's concrete scenario.  On the declaration with
`login_name = "alice"`, `permissions = ["user", "scan"]` and
`project_key = "proj1"`, Create issues exactly two POSTs to
`/api/permissions/add_user` with the query strings
`login=alice&permission=user&projectKey=proj1` and
`login=alice&permission=scan&projectKey=proj1`, each expecting `204`,
then one GET to `/api/permissions/users?projectKey=proj1&ps=100`
expecting `200`; the read-back finds the entry whose login (`"Alice"`
here) equals `"alice"` case-insensitively and stores that entry's
permission list. -/
theorem aliceScenarioCreateRead :
    resourceSonarqubePermissionsCreate wireAlice confFix dAlice "uuid-1" =
      (.ok { loginName := "Alice", groupName := "", specialGroupName := ""
             projectKey := "proj1", templateId := "", templateName := ""
             permissions := [.str "scan", .str "user"], id := "uuid-1" },
       [{ method := "POST"
          url := "/api/permissions/add_user?login=alice&permission=user&projectKey=proj1"
          expectedStatus := 204 },
        { method := "POST"
          url := "/api/permissions/add_user?login=alice&permission=scan&projectKey=proj1"
          expectedStatus := 204 },
        { method := "GET"
          url := "/api/permissions/users?projectKey=proj1&ps=100"
          expectedStatus := 200 }]) := by
  decide

/-- C2: for a declaration whose Create and Delete endpoint resolution
succeed and whose permission list is non-empty, both operations issue
one POST per declared value, each expecting `204 No Content`; when every
request succeeds the issued requests are exactly one per value in
declaration order (Create then continues with the read-back GET); when
the request for one value fails, the operation returns the wrapped
error at once, issues no request for the later values and no rollback
request for the earlier, already applied values — the trace is exactly
the requests up to and including the failing one. -/
theorem permissionsPerValueRequestSemantics
    (w : Wire) (conf : ProviderConfiguration) (d : PermDecl) (newUuid : String)
    (pathC : String) (qC : Values) (pathD : String) (qD : Values)
    (hC : permCreateResolve d = .ok (pathC, qC))
    (hD : permDeleteResolve d = .ok (pathD, qD))
    (_hne : expandPermissions d ≠ []) :
    (∀ p : String,
      (permRequest conf pathC qC p).method = "POST" ∧
      (permRequest conf pathC qC p).expectedStatus = 204 ∧
      (permRequest conf pathD qD p).method = "POST" ∧
      (permRequest conf pathD qD p).expectedStatus = 204) ∧
    ((∀ p ∈ expandPermissions d,
        exceptIsOk (w.http (permRequest conf pathC qC p)) = true) →
      (resourceSonarqubePermissionsCreate w conf d newUuid).2 =
        (expandPermissions d).map (permRequest conf pathC qC) ++
          (resourceSonarqubePermissionsRead w conf { d with id := newUuid }).2) ∧
    ((∀ p ∈ expandPermissions d,
        exceptIsOk (w.http (permRequest conf pathD qD p)) = true) →
      resourceSonarqubePermissionsDelete w conf d =
        (.ok (), (expandPermissions d).map (permRequest conf pathD qD))) ∧
    (∀ pre pf post e, expandPermissions d = pre ++ pf :: post →
      (∀ p ∈ pre, exceptIsOk (w.http (permRequest conf pathC qC p)) = true) →
      w.http (permRequest conf pathC qC pf) = .error e →
      resourceSonarqubePermissionsCreate w conf d newUuid =
        (.error (.errorString ("error creating Sonarqube permission: " ++ e.message)),
         (pre ++ [pf]).map (permRequest conf pathC qC))) ∧
    (∀ pre pf post e, expandPermissions d = pre ++ pf :: post →
      (∀ p ∈ pre, exceptIsOk (w.http (permRequest conf pathD qD p)) = true) →
      w.http (permRequest conf pathD qD pf) = .error e →
      resourceSonarqubePermissionsDelete w conf d =
        (.error (.errorString ("error creating Sonarqube permission: " ++ e.message)),
         (pre ++ [pf]).map (permRequest conf pathD qD))) := by
  refine ⟨fun p => ⟨rfl, rfl, rfl, rfl⟩, ?_, ?_, ?_, ?_⟩
  · intro hall
    unfold resourceSonarqubePermissionsCreate
    rw [hC]
    dsimp only
    rw [permLoop_all_ok w conf pathC qC _ _ hall]
  · intro hall
    unfold resourceSonarqubePermissionsDelete
    rw [hD]
    dsimp only
    rw [permLoop_all_ok w conf pathD qD _ _ hall]
  · intro pre pf post e hsplit hpre hf
    unfold resourceSonarqubePermissionsCreate
    rw [hC]
    dsimp only
    rw [hsplit, permLoop_first_fail w conf pathC qC _ pre pf post e hpre hf]
  · intro pre pf post e hsplit hpre hf
    unfold resourceSonarqubePermissionsDelete
    rw [hD]
    dsimp only
    rw [hsplit, permLoop_first_fail w conf pathD qD _ pre pf post e hpre hf]

theorem permissionsPerValueRequestSemanticsWitness :
    resourceSonarqubePermissionsCreate wireFailScan confFix dBob "u2" =
      (.error (.errorString "error creating Sonarqube permission: boom"),
       (["user"] ++ ["scan"]).map
         (permRequest confFix "/api/permissions/add_user" [("login", "bob")])) :=
  (permissionsPerValueRequestSemantics wireFailScan confFix dBob "u2"
      "/api/permissions/add_user" [("login", "bob")]
      "/api/permissions/remove_user" [("login", "bob")]
      (by decide) (by decide) (by decide)).2.2.2.1
    ["user"] "scan" [] (.errorString "boom") (by decide) (by decide) (by decide)

/-- C4 counterexample: the claim says every Read scan matches its
natural key case-insensitively, in particular a record whose name
differs from the declared value only in letter case is matched.  The
binding Read compares `idSlice[1]` with the remote repository by exact
equality: with stored id `proj/Repo` and a remote record whose
repository is `repo` (ALM `gitlab`), Read reports the binding as not
found. -/
theorem gitlabBindingReadCaseSensitiveRepoCex :
    resourceSonarqubeGitlabBindingRead wireBind confFix dBindCex =
      (.err (.errorString
        "resourceSonarqubeGitlabBindingRead: Failed to find gitlab binding: proj/Repo"),
       [{ method := "GET"
          url := "/api/alm_settings/get_binding?project=proj"
          expectedStatus := 200 }]) := by
  decide

/-- C4 amended: the permissions Read matches login names, group names
and template id-or-name case-insensitively (shown on the full Read for
the user branch and at the scan-predicate level for the group and
template branches), but the GitLab binding Read compares the
repository+ALM pair exactly: any difference, letter case included,
fails the match. -/
theorem readNaturalKeyMatching
    (w : Wire) (conf : ProviderConfiguration) (d : PermDecl)
    (u : User) (pg : Paging) (body : String)
    (hLogin : d.loginName ≠ "")
    (hFold : goToLower u.login = goToLower d.loginName)
    (hHttp : w.http (permReadUserRequest conf d) = .ok body)
    (hDec : w.decodeUsers body = .ok ⟨pg, [u]⟩) :
    (resourceSonarqubePermissionsRead w conf d).1 =
      .ok { d with
          loginName := u.login
          permissions := flattenPermissions (some u.permissions) } ∧
    (∀ gname g, goToLower g.name = goToLower gname →
      groupPermMatch gname g = true) ∧
    (∀ tid tname t,
      goToLower t.id = goToLower tid ∨ goToLower t.name = goToLower tname →
      templatePermMatch tid tname t = true) ∧
    (∀ repo bb, repo ≠ bb.repository → gitlabBindingMatch repo bb = false) := by
  refine ⟨?_, ?_, ?_, ?_⟩
  · unfold resourceSonarqubePermissionsRead
    rw [if_pos hLogin]
    dsimp only
    rw [hHttp]
    dsimp only
    rw [hDec]
    have hu : userPermMatch d.loginName u = true := by
      simp [userPermMatch, goEqualFold, hFold]
    simp [List.find?, hu]
  · intro gname g h
    simp [groupPermMatch, goEqualFold, h]
  · intro tid tname t h
    cases h with
    | inl h => simp [templatePermMatch, goEqualFold, h]
    | inr h => simp [templatePermMatch, goEqualFold, h]
  · intro repo bb h
    simp [gitlabBindingMatch, h]

theorem readNaturalKeyMatchingWitness :
    (resourceSonarqubePermissionsRead wireAlice confFix dAlice).1 =
      .ok { dAlice with
          loginName := "Alice"
          permissions := flattenPermissions (some ["scan", "user"]) } ∧
    (∀ gname g, goToLower g.name = goToLower gname →
      groupPermMatch gname g = true) ∧
    (∀ tid tname t,
      goToLower t.id = goToLower tid ∨ goToLower t.name = goToLower tname →
      templatePermMatch tid tname t = true) ∧
    (∀ repo bb, repo ≠ bb.repository → gitlabBindingMatch repo bb = false) :=
  readNaturalKeyMatching wireAlice confFix dAlice
    ⟨"Alice", ["scan", "user"]⟩ pagingFix "usersBody"
    (by decide) (by decide) (by decide) (by decide)

/-- C6 counterexample: the claim says a Read that finds no matching
record returns a NotFound error the caller can distinguish from a
TransportError.  In the code both outcomes are plain `fmt.Errorf`
message strings: a transport-failure run and a no-match run of the
permissions Read return errors with the same constructor, the same
unwrap chain (none) and the same shape — nothing but the message text
tells them apart, so no error-kind distinction survives. -/
theorem permissionsReadErrorShapeCollapsedCex :
    (resourceSonarqubePermissionsRead wireTransportFail confFix dCarol).1 =
      .error (.errorString
        "error reading Sonarqube permissions: TransportError: connection refused") ∧
    (resourceSonarqubePermissionsRead wireNoMatch confFix dCarol).1 =
      .error (.errorString
        "resourceSonarqubePermissionsRead: Unable to find group permissions for group: id-1") ∧
    GoError.shape (.errorString
        "error reading Sonarqube permissions: TransportError: connection refused") =
      GoError.shape (.errorString
        "resourceSonarqubePermissionsRead: Unable to find group permissions for group: id-1") ∧
    GoError.unwrap (.errorString
        "error reading Sonarqube permissions: TransportError: connection refused") = none ∧
    GoError.unwrap (.errorString
        "resourceSonarqubePermissionsRead: Unable to find group permissions for group: id-1") = none := by
  decide

/-- C6 amended: the permissions Read reports a transport failure as the
plain formatted error `error reading Sonarqube permissions: <cause>`
and a missing record as the plain formatted error
`resourceSonarqubePermissionsRead: Unable to find group permissions for
group: <id>`; neither carries an error type or a wrapped cause, so the
two runs are distinguishable only by those message texts. -/
theorem permissionsReadErrorMessagesOnly
    (w : Wire) (conf : ProviderConfiguration) (d : PermDecl)
    (hLogin : d.loginName ≠ "") :
    (∀ e, w.http (permReadUserRequest conf d) = .error e →
      (resourceSonarqubePermissionsRead w conf d).1 =
        .error (.errorString
          ("error reading Sonarqube permissions: " ++ e.message))) ∧
    (∀ body resp, w.http (permReadUserRequest conf d) = .ok body →
      w.decodeUsers body = .ok resp →
      resp.users.find? (userPermMatch d.loginName) = none →
      (resourceSonarqubePermissionsRead w conf d).1 =
        .error (.errorString
          ("resourceSonarqubePermissionsRead: Unable to find group permissions for group: " ++ d.id))) := by
  constructor
  · intro e he
    unfold resourceSonarqubePermissionsRead
    rw [if_pos hLogin]
    dsimp only
    rw [he]
  · intro body resp hb hdec hfind
    unfold resourceSonarqubePermissionsRead
    rw [if_pos hLogin]
    dsimp only
    rw [hb]
    dsimp only
    rw [hdec]
    dsimp only
    rw [hfind]

theorem permissionsReadErrorMessagesOnlyWitness :
    (resourceSonarqubePermissionsRead wireTransportFail confFix dCarol).1 =
      .error (.errorString
        "error reading Sonarqube permissions: TransportError: connection refused") := by
  exact (permissionsReadErrorMessagesOnly wireTransportFail confFix dCarol
      (by decide)).1
    (transportClassifiedError "connection refused") (by decide)

/-- C8: on successful Create, the stored identity is the freshly
generated UUID for the permissions resource, and the concatenation of
the project key, `/` and the repository value for the GitLab binding
resource. -/
theorem createIdentityFormats
    (w : Wire) (conf : ProviderConfiguration) (d : PermDecl)
    (newUuid : String) (b : GitlabBindingDecl) :
    (∀ d', (resourceSonarqubePermissionsCreate w conf d newUuid).1 = .ok d' →
      d'.id = newUuid) ∧
    (∀ b', (resourceSonarqubeGitlabBindingCreate w conf b).1 = .ok b' →
      b'.id = b.project ++ "/" ++ b.repository) := by
  constructor
  · intro d' h
    unfold resourceSonarqubePermissionsCreate at h
    dsimp only at h
    repeat' split at h
    all_goals dsimp only at h
    all_goals try exact absurd h (by simp)
    exact permRead_preserves_id w conf _ d' h
  · intro b' h
    unfold resourceSonarqubeGitlabBindingCreate at h
    dsimp only at h
    repeat' split at h
    all_goals dsimp only at h
    all_goals try exact absurd h (by simp)
    exact gitlabRead_preserves_id w conf _ b' h

theorem createIdentityFormatsWitness :
    ({ loginName := "Alice", groupName := "", specialGroupName := ""
       projectKey := "proj1", templateId := "", templateName := ""
       permissions := [GoValue.str "scan", GoValue.str "user"]
       id := "uuid-1" } : PermDecl).id = "uuid-1" ∧
    ({ almSetting := "gl1", monorepo := "false", project := "proj"
       repository := "repo", id := "proj/repo" } : GitlabBindingDecl).id =
      "proj" ++ "/" ++ "repo" :=
  ⟨(createIdentityFormats wireAlice confFix dAlice "uuid-1" dBind).1 _ (by decide),
   (createIdentityFormats wireBind confFix dAlice "uuid-1" dBind).2 _ (by decide)⟩

/-- C9: when the stored identity contains no `/` character, the binding
Read splits it into a one-element slice and then indexes element 1:
once the edition check passes and the GET and the decode succeed, Read
— and Import, which delegates to Read — ends in the index-out-of-range
panic instead of returning an error. -/
theorem gitlabBindingReadNoSlashPanics
    (w : Wire) (conf : ProviderConfiguration) (d : GitlabBindingDecl)
    (body : String) (b : GetBinding)
    (hSlash : '/' ∉ d.id.toList)
    (hEdition : goToLower conf.sonarQubeEdition ≠ "community")
    (hHttp : w.http (gitlabGetBindingRequest conf d.id) = .ok body)
    (hDec : w.decodeBinding body = .ok b) :
    goSplitN2Slash d.id = [d.id] ∧
    resourceSonarqubeGitlabBindingRead w conf d =
      (.panicked "runtime error: index out of range [1] with length 1",
       [gitlabGetBindingRequest conf d.id]) ∧
    resourceSonarqubeGitlabBindingImport w conf d =
      (.panicked "runtime error: index out of range [1] with length 1",
       [gitlabGetBindingRequest conf d.id]) := by
  have hsplit : goSplitN2Slash d.id = [d.id] := goSplitN2Slash_no_slash d.id hSlash
  have hcheck : checkGitlabBindingSupport conf = none := by
    unfold checkGitlabBindingSupport
    rw [if_neg hEdition]
  have hread : resourceSonarqubeGitlabBindingRead w conf d =
      (.panicked "runtime error: index out of range [1] with length 1",
       [gitlabGetBindingRequest conf d.id]) := by
    unfold resourceSonarqubeGitlabBindingRead
    rw [hcheck]
    dsimp only
    simp only [hsplit, List.headD, hHttp, hDec, List.get?]
  refine ⟨hsplit, hread, ?_⟩
  unfold resourceSonarqubeGitlabBindingImport
  rw [hread]

theorem gitlabBindingReadNoSlashPanicsWitness :
    goSplitN2Slash dNoSlash.id = [dNoSlash.id] ∧
    resourceSonarqubeGitlabBindingRead wireBind confFix dNoSlash =
      (.panicked "runtime error: index out of range [1] with length 1",
       [gitlabGetBindingRequest confFix dNoSlash.id]) ∧
    resourceSonarqubeGitlabBindingImport wireBind confFix dNoSlash =
      (.panicked "runtime error: index out of range [1] with length 1",
       [gitlabGetBindingRequest confFix dNoSlash.id]) :=
  gitlabBindingReadNoSlashPanics wireBind confFix dNoSlash "bindBody"
    ⟨"gl1", "gitlab", "repo", false⟩
    (by decide) (by decide) (by decide) (by decide)

end SonarQube
